import Mathlib

/-!
Verification of the SergeAI backend's authentication and crisis-triage core.

The definitions below are a shallow embedding of the Python source:
* `app/routers/chat.py`   — `generate_ai_response` (crisis triage classifier);
* `app/routers/users.py`  — password-reset flow, `AuthService.get_current_user`,
  `authenticate_user` / `login_user`;
* `app/utils/utils.py`    — `create_access_token` / `decode_access_token`;
* `app/core/config.py`    — JWT configuration constants.

Strings are modelled as `List Char` where character-level operations matter
(lower-casing, substring search); datetimes are modelled as `Nat` seconds;
the database session is modelled as a `List UserRec` passed and returned
explicitly; external collaborators (bcrypt hashing, password verification,
the OpenAI call, random choice, uuid generation) are parameters.
-/

namespace SergeAI

/-! ## Crisis triage classifier (`app/routers/chat.py`, `generate_ai_response`) -/

/-- Charwise equality of a leading segment: `leadMatch n h` is true iff `n`
is an initial segment of `h`. Building block for Python substring search. -/
def leadMatch : List Char → List Char → Bool
  | [], _ => true
  | _ :: _, [] => false
  | c :: cs, d :: ds => c == d && leadMatch cs ds

/-- Python `needle in haystack` on strings: `needle` occurs as a contiguous
substring of `haystack` (the empty needle always matches). -/
def hasSubstr (needle : List Char) : List Char → Bool
  | [] => leadMatch needle []
  | d :: ds => leadMatch needle (d :: ds) || hasSubstr needle ds

/-- `any(keyword in msg for keyword in kws)` from the Python source. -/
def containsAny (kws : List (List Char)) (msg : List Char) : Bool :=
  kws.any (fun k => hasSubstr k msg)

/-- `crisis_keywords` from `generate_ai_response`. -/
def crisis_keywords : List (List Char) :=
  ["suicide".toList, "kill myself".toList, "end it all".toList,
   "harm myself".toList, "die".toList, "hurt myself".toList]

/-- `anxiety_keywords` from `generate_ai_response`. -/
def anxiety_keywords : List (List Char) :=
  ["anxious".toList, "anxiety".toList, "panic".toList,
   "worried".toList, "stressed".toList, "overwhelmed".toList]

/-- `depression_keywords` from `generate_ai_response`. -/
def depression_keywords : List (List Char) :=
  ["depressed".toList, "sad".toList, "hopeless".toList,
   "empty".toList, "worthless".toList, "lonely".toList]

/-- The fixed crisis safety reply returned on a crisis keyword match. -/
def crisis_message : String :=
  "I\x27m really concerned about what you\x27re sharing with me. Your life has value and meaning. Please reach out to a crisis helpline immediately - you can call 988 (Suicide & Crisis Lifeline) or text HOME to 741741. You don\x27t have to go through this alone. Would you like me to help you find additional professional support resources?"

/-- The fixed anxiety reply returned on an anxiety keyword match. -/
def anxiety_message : String :=
  "I understand that anxiety can be really overwhelming. Would you like to try a quick breathing exercise together, or would you prefer to talk about what\x27s been making you feel anxious? Remember, these feelings are temporary and manageable."

/-- The fixed depression reply returned on a depression keyword match. -/
def depression_message : String :=
  "I hear that you\x27re going through a difficult time. These feelings of sadness are valid, and I want you to know that you\x27re not alone. Would you like to explore some small steps that might help you feel a bit better today?"

/-- `supportive_responses`, the canned fallback replies. -/
def supportive_responses : List String :=
  ["I understand how you\x27re feeling. Would you like to explore some coping strategies together?",
   "That sounds challenging. Remember that it\x27s okay to feel this way, and you\x27re taking a positive step by reaching out.",
   "I\x27m here to support you. Would you like to try a quick mindfulness exercise?",
   "Your feelings are valid. Let\x27s work through this together. What would be most helpful right now?",
   "Thank you for sharing that with me. How long have you been experiencing these feelings?",
   "It\x27s completely normal to have these thoughts. Would you like to practice some grounding techniques?",
   "I appreciate you opening up to me. Sometimes talking through our feelings can really help.",
   "You\x27re being very brave by reaching out. Would you like me to suggest some helpful resources?",
   "I hear that you\x27re struggling. Remember that seeking help is a sign of strength, not weakness.",
   "Let\x27s take this one step at a time. What\x27s the most pressing thing on your mind right now?"]

/-- Result of `generate_ai_response`: the reply text together with whether the
external OpenAI call was invoked on the way. -/
structure GenResult where
  response : String
  externalCalled : Bool
deriving DecidableEq

/-- Shallow embedding of `generate_ai_response` from `app/routers/chat.py`.
`apiKey` models `openai.api_key` being set; `ext` models the outcome of the
external `openai.ChatCompletion.create` call (`none` = the call raised, which
falls through to the canned responses); `r` models the randomness consumed by
`random.choice`. The message is lower-cased, then the three keyword tiers are
tried in order crisis, anxiety, depression; only when none matches is the
external call attempted, with the canned list as final fallback. -/
def generate_ai_response (apiKey : Bool) (ext : Option String) (r : Nat)
    (user_message : List Char) : GenResult :=
  let ml := user_message.map Char.toLower
  if containsAny crisis_keywords ml then
    { response := crisis_message, externalCalled := false }
  else if containsAny anxiety_keywords ml then
    { response := anxiety_message, externalCalled := false }
  else if containsAny depression_keywords ml then
    { response := depression_message, externalCalled := false }
  else if apiKey then
    match ext with
    | some s => { response := s, externalCalled := true }
    | none =>
        { response := supportive_responses.getD (r % supportive_responses.length) "",
          externalCalled := true }
  else
    { response := supportive_responses.getD (r % supportive_responses.length) "",
      externalCalled := false }

/-- The severity tier assigned to a message by the classifier. -/
inductive Tier where
  | crisis
  | anxiety
  | depression
  | noTier
deriving DecidableEq

/-- Tier assignment extracted from the branch structure of
`generate_ai_response`: same lower-casing, same tier order. -/
def severityTier (user_message : List Char) : Tier :=
  let ml := user_message.map Char.toLower
  if containsAny crisis_keywords ml then Tier.crisis
  else if containsAny anxiety_keywords ml then Tier.anxiety
  else if containsAny depression_keywords ml then Tier.depression
  else Tier.noTier

/-- A message matches some keyword of some tier. -/
def anyTierKeyword (ml : List Char) : Bool :=
  containsAny crisis_keywords ml || containsAny anxiety_keywords ml
    || containsAny depression_keywords ml

/-! ## Users and the password-reset flow (`app/routers/users.py`) -/

/-- The `User` row from `app/models.py`, restricted to the fields the
auth/reset core reads or writes. `reset_token_expires` is a datetime modelled
as `Nat` seconds since an epoch. -/
structure UserRec where
  id : Nat
  username : String
  email : String
  hashed_password : String
  is_active : Bool
  reset_token : Option String
  reset_token_expires : Option Nat
deriving DecidableEq

/-- `db.query(User).filter(User.email == email).first()`. -/
def findByEmail (email : String) (db : List UserRec) : Option UserRec :=
  db.find? (fun u => u.email == email)

/-- `db.query(User).filter(User.email == email, User.reset_token == token).first()`. -/
def findByEmailToken (email token : String) (db : List UserRec) : Option UserRec :=
  db.find? (fun u => u.email == email && u.reset_token == some token)

/-- Mutate-and-commit on the row returned by `.first()`: update the first
element satisfying `p` by `f`, leave the rest unchanged. -/
def updateFirst (p : UserRec → Bool) (f : UserRec → UserRec) :
    List UserRec → List UserRec
  | [] => []
  | u :: us => if p u then f u :: us else u :: updateFirst p f us

/-- `timedelta(hours=1)` in seconds. -/
def oneHour : Nat := 3600

/-- The fixed response body of `forgot_password`, returned on both branches. -/
def resetLinkMsg : String :=
  "If an account with that email exists, we’ve sent a reset link."

/-- Shallow embedding of `forgot_password`: look the user up by email; if
found, store a fresh reset token (`str(uuid.uuid4())`, modelled by the
`freshToken` parameter) and an expiry one hour from now, and commit; either
way answer with the same fixed message. Returns (database after the call,
response message). -/
def forgot_password (now : Nat) (freshToken : String) (email : String)
    (db : List UserRec) : List UserRec × String :=
  match findByEmail email db with
  | none => (db, resetLinkMsg)
  | some _ =>
      (updateFirst (fun u => u.email == email)
        (fun u => { u with reset_token := some freshToken,
                           reset_token_expires := some (now + oneHour) }) db,
       resetLinkMsg)

/-- Shallow embedding of `verify_reset_token`: find the user by email and
reset token; fail with HTTP 400 when there is no such user, no stored expiry,
or the stored expiry is strictly before now; otherwise answer
"Token is valid". Returns (database after the call, HTTP outcome). -/
def verify_reset_token (now : Nat) (email token : String)
    (db : List UserRec) : List UserRec × Except Nat String :=
  match findByEmailToken email token db with
  | none => (db, Except.error 400)
  | some u =>
      match u.reset_token_expires with
      | none => (db, Except.error 400)
      | some exp =>
          if exp < now then (db, Except.error 400)
          else (db, Except.ok "Token is valid")

/-- Shallow embedding of `reset_password`: same lookup and expiry check as
`verify_reset_token`; on success store `bcrypt.hash(new_password)` (the hash
function is the `bhash` parameter), clear `reset_token` and
`reset_token_expires`, and commit. -/
def reset_password (bhash : String → String) (now : Nat)
    (email token newPassword : String)
    (db : List UserRec) : List UserRec × Except Nat String :=
  match findByEmailToken email token db with
  | none => (db, Except.error 400)
  | some u =>
      match u.reset_token_expires with
      | none => (db, Except.error 400)
      | some exp =>
          if exp < now then (db, Except.error 400)
          else
            (updateFirst (fun v => v.email == email && v.reset_token == some token)
              (fun v => { v with hashed_password := bhash newPassword,
                                 reset_token := none,
                                 reset_token_expires := none }) db,
             Except.ok "Password reset successfully")

/-- The validity condition the spec states for a submitted (email, token)
pair against a stored user: the stored token matches and the expiry has not
yet passed. Used to state the validation claims. -/
def resetTokenUsable (now : Nat) (email token : String) (u : UserRec) : Prop :=
  u.email = email ∧ u.reset_token = some token ∧
    ∃ exp, u.reset_token_expires = some exp ∧ now ≤ exp

/-! ## JWT token service (`app/utils/utils.py`, `app/core/config.py`) -/

/-- A JSON claim value: JWT payloads here hold strings (`sub`) and
timestamps (`exp`). -/
inductive JVal where
  | str (s : String)
  | time (n : Nat)
deriving DecidableEq

/-- A JWT payload: a Python dict of claims, as an association list. -/
abbrev JDict := List (String × JVal)

/-- Python `d.get(k)`: first binding of `k`, if any. -/
def dictLookup (k : String) (d : JDict) : Option JVal :=
  (d.find? (fun p => p.1 == k)).map (fun p => p.2)

/-- Python `d[k] = v`: overwrite the binding when the key is present,
append it otherwise. -/
def dictInsert (k : String) (v : JVal) (d : JDict) : JDict :=
  if d.any (fun p => p.1 == k) then
    d.map (fun p => if p.1 == k then (k, v) else p)
  else d ++ [(k, v)]

/-- A signed JWT, modelled from the documented semantics of the external
`jwt` library: the payload together with the signing key and algorithm
(an HMAC signature is forgeable only with the key, modelled by recording
the key itself). -/
structure JwtToken where
  payload : JDict
  key : String
  alg : String
deriving DecidableEq

/-- `jwt.encode(payload, key, algorithm=alg)`. -/
def jwtEncode (payload : JDict) (key : String) (alg : String) : JwtToken :=
  ⟨payload, key, alg⟩

/-- `jwt.decode(tok, key, algorithms=algs)`, modelled from the documented
semantics of the external library: reject a token whose signature does not
verify under `key` or whose algorithm is not allowed; reject an expired
token (an `exp` claim less than or equal to the current time); otherwise
return the payload. -/
def jwtDecode (now : Nat) (tok : JwtToken) (key : String)
    (algs : List String) : Option JDict :=
  if tok.key == key && algs.contains tok.alg then
    match dictLookup "exp" tok.payload with
    | some (JVal.time exp) => if exp ≤ now then none else some tok.payload
    | _ => some tok.payload
  else none

/-- `ALGORITHM = "HS256"` from `app/core/config.py`. -/
def ALGORITHM : String := "HS256"

/-- `ACCESS_TOKEN_EXPIRE_MINUTES = 30`. -/
def ACCESS_TOKEN_EXPIRE_MINUTES : Nat := 30

/-- `SECRET_KEY` is environment-provided (`os.getenv`); its actual value is
opaque, so it is modelled as a fixed abstract constant. No claim depends on
the value, only on agreement between signer and verifier. -/
def SECRET_KEY : String := "environment-secret-key"

/-- Python `expires_delta or timedelta(minutes=ACCESS_TOKEN_EXPIRE_MINUTES)`:
`or` returns its right operand on any falsy left operand, i.e. on `None`
and also on a zero timedelta. -/
def deltaOrDefault (expires_delta : Option Nat) : Nat :=
  match expires_delta with
  | some d => if d = 0 then ACCESS_TOKEN_EXPIRE_MINUTES * 60 else d
  | none => ACCESS_TOKEN_EXPIRE_MINUTES * 60

/-- Shallow embedding of `create_access_token`: copy the data dict, set
`exp` to now plus `expires_delta or timedelta(minutes=30)` (the truthiness
fallback, in seconds), and sign with `SECRET_KEY` under `ALGORITHM`. -/
def create_access_token (now : Nat) (data : JDict)
    (expires_delta : Option Nat) : JwtToken :=
  let expire := now + deltaOrDefault expires_delta
  jwtEncode (dictInsert "exp" (JVal.time expire) data) SECRET_KEY ALGORITHM

/-- Shallow embedding of `decode_access_token`: decode under `SECRET_KEY`
and `ALGORITHM`, returning `none` on any `PyJWTError` (bad signature,
wrong algorithm, expired). -/
def decode_access_token (now : Nat) (token : JwtToken) : Option JDict :=
  jwtDecode now token SECRET_KEY [ALGORITHM]

/-! ## Bearer-token authentication and login (`app/routers/users.py`) -/

/-- `int(user_id)` on the `sub` claim: Python `int` on a decimal string
(modelled for the non-negative ids the database uses), identity on an
integer claim; `none` models `ValueError`. -/
def parseUserId : JVal → Option Nat
  | JVal.str s => s.toNat?
  | JVal.time n => some n

/-- Shallow embedding of `AuthService.get_current_user`: decode the bearer
token; 401 when decoding fails, when the payload has no `sub`, when `sub`
is not an integer, or when no stored user has that id; otherwise return the
user. -/
def get_current_user (now : Nat) (token : JwtToken)
    (db : List UserRec) : Except Nat UserRec :=
  match jwtDecode now token SECRET_KEY [ALGORITHM] with
  | none => Except.error 401
  | some payload =>
      match dictLookup "sub" payload with
      | none => Except.error 401
      | some v =>
          match parseUserId v with
          | none => Except.error 401
          | some uid =>
              match db.find? (fun u => u.id == uid) with
              | none => Except.error 401
              | some u => Except.ok u

/-- Shallow embedding of `authenticate_user`: first user whose username or
email equals the submitted identifier, then `verify_password` (the external
hash verifier is the `vrfy` parameter, taking plain then hashed). -/
def authenticate_user (vrfy : String → String → Bool)
    (username password : String) (db : List UserRec) : Option UserRec :=
  match db.find? (fun u => u.username == username || u.email == username) with
  | none => none
  | some u => if vrfy password u.hashed_password then some u else none

/-- Shallow embedding of `login_user`: 401 when authentication fails, 400
when the account is inactive, else issue a 30-minute access token whose
`sub` is `str(user.id)`. -/
def login_user (vrfy : String → String → Bool) (now : Nat)
    (username password : String)
    (db : List UserRec) : Except Nat (UserRec × JwtToken) :=
  match authenticate_user vrfy username password db with
  | none => Except.error 401
  | some u =>
      if u.is_active then
        Except.ok (u, create_access_token now
          [("sub", JVal.str (toString u.id))] (some (30 * 60)))
      else Except.error 400

/-! ## Theorems -/

/-- Claim C1: the triage classifier applies the keyword tiers in the fixed
order crisis, anxiety, depression with first-match-wins: a crisis keyword
forces the crisis safety reply regardless of other keywords; otherwise an
anxiety keyword forces the anxiety reply regardless of depression keywords;
otherwise a depression keyword forces the depression reply. -/
theorem triage_first_match_wins (apiKey : Bool) (ext : Option String) (r : Nat)
    (m : List Char) :
    (containsAny crisis_keywords (m.map Char.toLower) = true →
      (generate_ai_response apiKey ext r m).response = crisis_message)
    ∧ (containsAny crisis_keywords (m.map Char.toLower) = false →
       containsAny anxiety_keywords (m.map Char.toLower) = true →
      (generate_ai_response apiKey ext r m).response = anxiety_message)
    ∧ (containsAny crisis_keywords (m.map Char.toLower) = false →
       containsAny anxiety_keywords (m.map Char.toLower) = false →
       containsAny depression_keywords (m.map Char.toLower) = true →
      (generate_ai_response apiKey ext r m).response = depression_message) := by
  refine ⟨fun h1 => ?_, fun h1 h2 => ?_, fun h1 h2 h3 => ?_⟩
  · simp [generate_ai_response, h1]
  · simp [generate_ai_response, h1, h2]
  · simp [generate_ai_response, h1, h2, h3]

theorem triage_first_match_wins_witness :
    (generate_ai_response true none 0 "I want to DIE, I am anxious and depressed".toList).response
        = crisis_message
    ∧ (generate_ai_response true none 0 "I feel ANXIOUS and depressed today".toList).response
        = anxiety_message
    ∧ (generate_ai_response true none 0 "I feel so DEPRESSED".toList).response
        = depression_message :=
  ⟨(triage_first_match_wins true none 0 _).1 (by decide),
   (triage_first_match_wins true none 0 _).2.1 (by decide) (by decide),
   (triage_first_match_wins true none 0 _).2.2 (by decide) (by decide) (by decide)⟩

/-- Claim C2: a message matching any keyword of any tier gets the
corresponding fixed safety reply and never invokes the external OpenAI
call; conversely, the external call is only reached by messages matching no
keyword in any tier. -/
theorem triage_short_circuit (apiKey : Bool) (ext : Option String) (r : Nat)
    (m : List Char) :
    (anyTierKeyword (m.map Char.toLower) = true →
      (generate_ai_response apiKey ext r m).externalCalled = false
      ∧ (generate_ai_response apiKey ext r m).response =
          (if containsAny crisis_keywords (m.map Char.toLower) then crisis_message
           else if containsAny anxiety_keywords (m.map Char.toLower) then anxiety_message
           else depression_message))
    ∧ ((generate_ai_response apiKey ext r m).externalCalled = true →
      anyTierKeyword (m.map Char.toLower) = false) := by
  cases h1 : containsAny crisis_keywords (m.map Char.toLower) <;>
  cases h2 : containsAny anxiety_keywords (m.map Char.toLower) <;>
  cases h3 : containsAny depression_keywords (m.map Char.toLower) <;>
  cases apiKey <;> cases ext <;>
    simp [generate_ai_response, anyTierKeyword, h1, h2, h3]

theorem triage_short_circuit_witness :
    ((generate_ai_response true (some "ok") 0 "I am sad".toList).externalCalled = false
      ∧ (generate_ai_response true (some "ok") 0 "I am sad".toList).response =
          (if containsAny crisis_keywords ("I am sad".toList.map Char.toLower) then crisis_message
           else if containsAny anxiety_keywords ("I am sad".toList.map Char.toLower) then anxiety_message
           else depression_message))
    ∧ anyTierKeyword ("hello there".toList.map Char.toLower) = false :=
  ⟨(triage_short_circuit true (some "ok") 0 "I am sad".toList).1 (by decide),
   (triage_short_circuit true (some "ok") 0 "hello there".toList).2 (by decide)⟩

/-- Claim C9: triage is case-insensitive: two messages with the same
charwise lower-casing get the same severity tier, and indeed the same
response altogether, because the input is lower-cased before keyword
matching. -/
theorem triage_case_insensitive (apiKey : Bool) (ext : Option String) (r : Nat)
    (m m2 : List Char) (h : m.map Char.toLower = m2.map Char.toLower) :
    severityTier m = severityTier m2
    ∧ generate_ai_response apiKey ext r m = generate_ai_response apiKey ext r m2 := by
  constructor <;> simp only [severityTier, generate_ai_response, h]

theorem triage_case_insensitive_witness :
    severityTier "I FEEL ANXIOUS".toList = severityTier "i feel anxious".toList
    ∧ generate_ai_response true none 0 "I FEEL ANXIOUS".toList
        = generate_ai_response true none 0 "i feel anxious".toList :=
  triage_case_insensitive true none 0 _ _ (by decide)

/-- Claim C8: `forgot_password` is non-revealing about account existence:
whatever the database and submitted email, the response message is the same
fixed string; only the stored state can differ. -/
theorem forgot_password_uniform_message (now : Nat) (freshToken email : String)
    (db : List UserRec) :
    (forgot_password now freshToken email db).2 = resetLinkMsg := by
  unfold forgot_password
  cases findByEmail email db <;> rfl

/-- Claim C10: `verify_reset_token` is read-only: on success and on every
failure it leaves the stored user state exactly as it was. -/
theorem verify_reset_token_read_only (now : Nat) (email token : String)
    (db : List UserRec) :
    (verify_reset_token now email token db).1 = db := by
  unfold verify_reset_token
  split
  · rfl
  · split
    · rfl
    · split <;> rfl

/-- Looking a key up after the overwrite branch of a dict assignment yields
the new value. -/
theorem dictLookup_overwrite (k : String) (v : JVal) (d : JDict)
    (h : d.any (fun p => p.1 == k) = true) :
    dictLookup k (d.map (fun p => if p.1 == k then (k, v) else p)) = some v := by
  induction d with
  | nil => simp at h
  | cons a d ih =>
      cases hak : (a.1 == k) with
      | true =>
          unfold dictLookup
          rw [List.map_cons, if_pos hak, List.find?_cons_of_pos]
          · rfl
          · simp
      | false =>
          simp only [List.any_cons, hak, Bool.false_or] at h
          unfold dictLookup
          rw [List.map_cons, if_neg (by simp [hak]), List.find?_cons_of_neg]
          · exact ih h
          · simp [hak]

/-- Looking a key up after the append branch of a dict assignment yields
the new value. -/
theorem dictLookup_append_new (k : String) (v : JVal) (d : JDict)
    (h : d.any (fun p => p.1 == k) = false) :
    dictLookup k (d ++ [(k, v)]) = some v := by
  induction d with
  | nil => simp [dictLookup]
  | cons a d ih =>
      simp only [List.any_cons, Bool.or_eq_false_iff] at h
      unfold dictLookup
      rw [List.cons_append, List.find?_cons_of_neg]
      · exact ih h.2
      · simp [h.1]

/-- Python `d[k] = v` followed by `d.get(k)` yields `v`. -/
theorem dictLookup_insert (k : String) (v : JVal) (d : JDict) :
    dictLookup k (dictInsert k v d) = some v := by
  cases hany : d.any (fun p => p.1 == k) with
  | true => simpa [dictInsert, hany] using dictLookup_overwrite k v d hany
  | false => simpa [dictInsert, hany] using dictLookup_append_new k v d hany

/-- Counterexample to C5 as stated: `expires_delta or timedelta(minutes=30)`
falls back to the default on any falsy delta, so a zero `expires_delta`
yields a stored expiry of issuance plus 30 minutes, not issuance plus the
given delta. -/
theorem token_delta_truthiness_cex :
    dictLookup "exp" (create_access_token 0 [("sub", JVal.str "1")] (some 0)).payload
      = some (JVal.time 1800)
    ∧ JVal.time 1800 ≠ JVal.time (0 + 0) := ⟨rfl, by decide⟩

/-- Claim C5 (amended at the zero-delta fallback): decoding a token freshly
produced by `create_access_token` under the same secret and algorithm
returns the original claims plus the `exp` claim; for a `sub`-only payload
the decoded subject equals the one encoded and the expiry equals issuance
time plus the given delta when that delta is nonzero, and issuance time
plus the 30-minute default when the delta is absent or zero (Python
truthiness of `expires_delta or timedelta(minutes=30)`); an expired token
and a token not signed with the secret both decode to `none`. -/
theorem token_round_trip (now now2 : Nat) (data : JDict) (delta : Option Nat)
    (s : String) :
    (now2 < now + deltaOrDefault delta →
      decode_access_token now2 (create_access_token now data delta)
        = some (dictInsert "exp"
            (JVal.time (now + deltaOrDefault delta)) data))
    ∧ dictLookup "sub" (create_access_token now [("sub", JVal.str s)] delta).payload
        = some (JVal.str s)
    ∧ dictLookup "exp" (create_access_token now [("sub", JVal.str s)] delta).payload
        = some (JVal.time (now + deltaOrDefault delta))
    ∧ (now + deltaOrDefault delta ≤ now2 →
      decode_access_token now2 (create_access_token now data delta) = none)
    ∧ (∀ tok : JwtToken, tok.key ≠ SECRET_KEY →
      decode_access_token now2 tok = none) := by
  refine ⟨fun h => ?_, ?_, ?_, fun h => ?_, fun tok hk => ?_⟩
  · simp [decode_access_token, create_access_token, jwtDecode, jwtEncode,
      dictLookup_insert, Nat.not_le.mpr h]
  · rfl
  · simp [create_access_token, jwtEncode, dictLookup_insert]
  · simp [decode_access_token, create_access_token, jwtDecode, jwtEncode,
      dictLookup_insert, h]
  · have hkf : (tok.key == SECRET_KEY) = false := by
      simpa using hk
    simp [decode_access_token, jwtDecode, hkf]

theorem token_round_trip_witness :
    decode_access_token 0 (create_access_token 0 [("sub", JVal.str "42")] none)
      = some [("sub", JVal.str "42"), ("exp", JVal.time 1800)]
    ∧ decode_access_token 100 (create_access_token 0 [("sub", JVal.str "7")] (some 0))
      = some [("sub", JVal.str "7"), ("exp", JVal.time 1800)] :=
  ⟨(token_round_trip 0 0 [("sub", JVal.str "42")] none "42").1 (by decide),
   (token_round_trip 0 100 [("sub", JVal.str "7")] (some 0) "7").1 (by decide)⟩

/-- Claim C7: every failure mode of bearer-token authentication yields 401
(undecodable token, payload without a subject, non-integer subject, subject
matching no stored user), and a login attempt whose identifier matches no
stored user or whose password does not verify yields 401. -/
theorem auth_invalid_gives_401
    (now : Nat) (token : JwtToken) (db : List UserRec)
    (vrfy : String → String → Bool) (username password : String) :
    (jwtDecode now token SECRET_KEY [ALGORITHM] = none →
      get_current_user now token db = Except.error 401)
    ∧ (∀ payload, jwtDecode now token SECRET_KEY [ALGORITHM] = some payload →
        dictLookup "sub" payload = none →
        get_current_user now token db = Except.error 401)
    ∧ (∀ payload v, jwtDecode now token SECRET_KEY [ALGORITHM] = some payload →
        dictLookup "sub" payload = some v → parseUserId v = none →
        get_current_user now token db = Except.error 401)
    ∧ (∀ payload v uid, jwtDecode now token SECRET_KEY [ALGORITHM] = some payload →
        dictLookup "sub" payload = some v → parseUserId v = some uid →
        db.find? (fun u => u.id == uid) = none →
        get_current_user now token db = Except.error 401)
    ∧ (authenticate_user vrfy username password db = none →
        login_user vrfy now username password db = Except.error 401)
    ∧ ((∀ u ∈ db, u.username ≠ username ∧ u.email ≠ username) →
        login_user vrfy now username password db = Except.error 401)
    ∧ (∀ u, db.find? (fun w => w.username == username || w.email == username) = some u →
        vrfy password u.hashed_password = false →
        login_user vrfy now username password db = Except.error 401) := by
  refine ⟨fun h1 => ?_, fun pl h1 h2 => ?_, fun pl v h1 h2 h3 => ?_,
    fun pl v uid h1 h2 h3 h4 => ?_, fun h1 => ?_, fun h1 => ?_, fun u h1 h2 => ?_⟩
  · simp [get_current_user, h1]
  · simp [get_current_user, h1, h2]
  · simp [get_current_user, h1, h2, h3]
  · simp [get_current_user, h1, h2, h3, h4]
  · simp [login_user, h1]
  · have hf : db.find? (fun u => u.username == username || u.email == username)
        = none := by
      rw [List.find?_eq_none]
      intro u hu
      simp [(h1 u hu).1, (h1 u hu).2]
    simp [login_user, authenticate_user, hf]
  · simp [login_user, authenticate_user, h1, h2]

theorem auth_invalid_gives_401_witness :
    get_current_user 0 ⟨[], "wrong-key", "HS256"⟩ [] = Except.error 401
    ∧ login_user (fun _ _ => false) 0 "alice" "pw" [] = Except.error 401 :=
  ⟨(auth_invalid_gives_401 0 ⟨[], "wrong-key", "HS256"⟩ []
      (fun _ _ => false) "alice" "pw").1 (by decide),
   (auth_invalid_gives_401 0 ⟨[], "wrong-key", "HS256"⟩ []
      (fun _ _ => false) "alice" "pw").2.2.2.2.1 (by decide)⟩

/-- On a database whose emails are unique (the `unique=True` column
constraint on `User.email`), rows with equal emails are equal. -/
theorem email_inj {db : List UserRec} (hn : (db.map UserRec.email).Nodup)
    {u v : UserRec} (hu : u ∈ db) (hv : v ∈ db) (h : u.email = v.email) :
    u = v :=
  List.inj_on_of_nodup_map hn hu hv h

/-- The row found by `.first()` is present, updated, in the committed
database. -/
theorem updateFirst_mem {p : UserRec → Bool} {f : UserRec → UserRec}
    {l : List UserRec} {u : UserRec} (h : l.find? p = some u) :
    f u ∈ updateFirst p f l := by
  induction l with
  | nil => simp at h
  | cons a l ih =>
      cases hpa : p a with
      | true =>
          rw [List.find?_cons_of_pos _ hpa] at h
          cases h
          simp [updateFirst, hpa]
      | false =>
          rw [List.find?_cons_of_neg] at h
          · simp [updateFirst, hpa, ih h]
          · simp [hpa]

/-- When emails are unique, every row of the committed database that bears
the email targeted by the update is exactly the updated found row: the
predicate only matches rows with that email and the update preserves it. -/
theorem updateFirst_eq_of_email {q : UserRec → Bool} {f : UserRec → UserRec}
    {e : String}
    (hq : ∀ w, q w = true → w.email = e) :
    ∀ {l : List UserRec}, (l.map UserRec.email).Nodup →
      ∀ {u : UserRec}, l.find? q = some u →
      ∀ v ∈ updateFirst q f l, v.email = e → v = f u := by
  intro l
  induction l with
  | nil =>
      intro _ u h
      simp at h
  | cons a l ih =>
      intro hn u hfind v hv hve
      rw [List.map_cons, List.nodup_cons] at hn
      cases hpa : q a with
      | true =>
          rw [List.find?_cons_of_pos _ hpa] at hfind
          cases hfind
          rw [updateFirst, if_pos hpa] at hv
          rcases List.mem_cons.mp hv with hva | hvl
          · exact hva
          · exfalso
            have hmem : v.email ∈ l.map UserRec.email :=
              List.mem_map_of_mem _ hvl
            rw [hve, ← hq a hpa] at hmem
            exact hn.1 hmem
      | false =>
          rw [List.find?_cons_of_neg] at hfind
          · rw [updateFirst, if_neg (by simp [hpa])] at hv
            rcases List.mem_cons.mp hv with hva | hvl
            · exfalso
              have hue : u.email = e := hq u (List.find?_some hfind)
              have hmem : u.email ∈ l.map UserRec.email :=
                List.mem_map_of_mem _ (List.mem_of_find?_eq_some hfind)
              rw [hue] at hmem
              apply hn.1
              rw [← hva, hve]
              exact hmem
            · exact ih hn.2 hfind v hvl hve
          · simp [hpa]

/-- A row returned by the email-and-token lookup is a stored row bearing
that email and that reset token. -/
theorem findByEmailToken_props {e t : String} {db : List UserRec}
    {u : UserRec} (h : findByEmailToken e t db = some u) :
    u ∈ db ∧ u.email = e ∧ u.reset_token = some t := by
  have hp := List.find?_some h
  simp only [Bool.and_eq_true, beq_iff_eq] at hp
  exact ⟨List.mem_of_find?_eq_some h, hp.1, hp.2⟩

/-- With unique emails, a stored row bearing the submitted email and token
is the row the email-and-token lookup returns. -/
theorem findByEmailToken_complete {e t : String} {db : List UserRec}
    (hn : (db.map UserRec.email).Nodup) {u : UserRec} (hu : u ∈ db)
    (he : u.email = e) (ht : u.reset_token = some t) :
    findByEmailToken e t db = some u := by
  cases hf : findByEmailToken e t db with
  | none =>
      rw [findByEmailToken, List.find?_eq_none] at hf
      exact absurd (by simp [he, ht]) (hf u hu)
  | some w =>
      obtain ⟨hwmem, hwe, _⟩ := findByEmailToken_props hf
      exact congrArg some (email_inj hn hwmem hu (hwe.trans he.symm))

/-- The email-and-token lookup followed by the expiry test succeeds exactly
on databases holding a usable reset token for the submitted pair. -/
theorem reset_check_characterization (now : Nat) (e t : String)
    (db : List UserRec) (hn : (db.map UserRec.email).Nodup) :
    (∃ u, findByEmailToken e t db = some u
        ∧ ∃ exp, u.reset_token_expires = some exp ∧ ¬ exp < now)
      ↔ ∃ u ∈ db, resetTokenUsable now e t u := by
  constructor
  · rintro ⟨u, hf, exp, hexp, hlt⟩
    obtain ⟨hmem, he, ht⟩ := findByEmailToken_props hf
    exact ⟨u, hmem, he, ht, exp, hexp, Nat.le_of_not_lt hlt⟩
  · rintro ⟨u, hmem, he, ht, exp, hexp, hle⟩
    exact ⟨u, findByEmailToken_complete hn hmem he ht, exp, hexp,
      Nat.not_lt.mpr hle⟩

/-- A concrete stored user instantiating the reset-flow theorems. -/
def demoUser : UserRec :=
  { id := 1, username := "alice", email := "a@b.c", hashed_password := "h",
    is_active := true, reset_token := some "t1", reset_token_expires := some 9 }

/-- Counterexample to C3 as stated: when the stored expiry equals the
current time — so the current time is not before the expiry — the code
still accepts the token, because it only rejects expiries strictly before
now (`reset_token_expires < datetime.utcnow()`). -/
theorem reset_token_strict_expiry_cex :
    (verify_reset_token 9 "a@b.c" "t1" [demoUser]).2 = Except.ok "Token is valid"
    ∧ ¬ (9 < 9) := ⟨rfl, by decide⟩

/-- Claim C3 (amended at the expiry boundary): on a database with unique
emails, `verify_reset_token` and `reset_password` succeed iff a stored user
has the submitted email, a stored reset token equal to the submitted one,
and a stored expiry not earlier than the current time; in every other case
(no match, no stored expiry, or expiry strictly before now) they fail with
a 400 error. -/
theorem reset_token_validation_iff (bhash : String → String) (now : Nat)
    (e t p : String) (db : List UserRec)
    (hn : (db.map UserRec.email).Nodup) :
    ((verify_reset_token now e t db).2 = Except.ok "Token is valid"
        ↔ ∃ u ∈ db, resetTokenUsable now e t u)
    ∧ ((verify_reset_token now e t db).2 = Except.error 400
        ↔ ¬ ∃ u ∈ db, resetTokenUsable now e t u)
    ∧ ((reset_password bhash now e t p db).2 = Except.ok "Password reset successfully"
        ↔ ∃ u ∈ db, resetTokenUsable now e t u)
    ∧ ((reset_password bhash now e t p db).2 = Except.error 400
        ↔ ¬ ∃ u ∈ db, resetTokenUsable now e t u) := by
  have hchar := reset_check_characterization now e t db hn
  have hv : (verify_reset_token now e t db).2 = Except.ok "Token is valid"
      ↔ ∃ u, findByEmailToken e t db = some u
          ∧ ∃ exp, u.reset_token_expires = some exp ∧ ¬ exp < now := by
    unfold verify_reset_token
    cases hf : findByEmailToken e t db with
    | none => simp
    | some u =>
        cases hexp : u.reset_token_expires with
        | none => simp [hexp]
        | some exp =>
            by_cases hlt : exp < now
            · simp [hexp, hlt]
            · simp [hexp, hlt, Nat.le_of_not_lt hlt]
  have hr : (reset_password bhash now e t p db).2
        = Except.ok "Password reset successfully"
      ↔ ∃ u, findByEmailToken e t db = some u
          ∧ ∃ exp, u.reset_token_expires = some exp ∧ ¬ exp < now := by
    unfold reset_password
    cases hf : findByEmailToken e t db with
    | none => simp
    | some u =>
        cases hexp : u.reset_token_expires with
        | none => simp [hexp]
        | some exp =>
            by_cases hlt : exp < now
            · simp [hexp, hlt]
            · simp [hexp, hlt, Nat.le_of_not_lt hlt]
  have hvd : (verify_reset_token now e t db).2 = Except.ok "Token is valid"
      ∨ (verify_reset_token now e t db).2 = Except.error 400 := by
    unfold verify_reset_token
    split
    · exact Or.inr rfl
    · split
      · exact Or.inr rfl
      · split
        · exact Or.inr rfl
        · exact Or.inl rfl
  have hrd : (reset_password bhash now e t p db).2
        = Except.ok "Password reset successfully"
      ∨ (reset_password bhash now e t p db).2 = Except.error 400 := by
    unfold reset_password
    split
    · exact Or.inr rfl
    · split
      · exact Or.inr rfl
      · split
        · exact Or.inr rfl
        · exact Or.inl rfl
  have hverr : (verify_reset_token now e t db).2 = Except.error 400
      ↔ ¬ ∃ u ∈ db, resetTokenUsable now e t u := by
    constructor
    · intro herr hex
      have hok := (hv.trans hchar).mpr hex
      rw [hok] at herr
      exact Except.noConfusion herr
    · intro hnex
      rcases hvd with hok | herr
      · exact absurd ((hv.trans hchar).mp hok) hnex
      · exact herr
  have hrerr : (reset_password bhash now e t p db).2 = Except.error 400
      ↔ ¬ ∃ u ∈ db, resetTokenUsable now e t u := by
    constructor
    · intro herr hex
      have hok := (hr.trans hchar).mpr hex
      rw [hok] at herr
      exact Except.noConfusion herr
    · intro hnex
      rcases hrd with hok | herr
      · exact absurd ((hr.trans hchar).mp hok) hnex
      · exact herr
  exact ⟨hv.trans hchar, hverr, hr.trans hchar, hrerr⟩

theorem reset_token_validation_iff_witness :
    ∃ u ∈ [demoUser], resetTokenUsable 3 "a@b.c" "t1" u :=
  ((reset_token_validation_iff (fun s => s) 3 "a@b.c" "t1" "np" [demoUser]
      (by simp)).1).mp rfl

/-- Claim C4: a reset token is single-use: on a database with unique
emails, after `reset_password` succeeds the affected user's stored
`reset_token` and `reset_token_expires` are both cleared, so a second
`verify_reset_token` or `reset_password` with the same token fails with
400. -/
theorem reset_password_single_use
    (bhash : String → String) (now now2 : Nat) (e t p p2 msg : String)
    (db : List UserRec)
    (hn : (db.map UserRec.email).Nodup)
    (h : (reset_password bhash now e t p db).2 = Except.ok msg) :
    (∃ v ∈ (reset_password bhash now e t p db).1,
        v.email = e ∧ v.reset_token = none ∧ v.reset_token_expires = none)
    ∧ (verify_reset_token now2 e t ((reset_password bhash now e t p db).1)).2
        = Except.error 400
    ∧ (reset_password bhash now2 e t p2 ((reset_password bhash now e t p db).1)).2
        = Except.error 400 := by
  obtain ⟨u, hf, exp, hexp, hlt⟩ :
      ∃ u, findByEmailToken e t db = some u
        ∧ ∃ exp, u.reset_token_expires = some exp ∧ ¬ exp < now := by
    unfold reset_password at h
    cases hf : findByEmailToken e t db with
    | none => simp [hf] at h
    | some u =>
        cases hexp : u.reset_token_expires with
        | none => simp [hf, hexp] at h
        | some exp =>
            by_cases hlt : exp < now
            · simp [hf, hexp, hlt] at h
            · exact ⟨u, rfl, exp, hexp, hlt⟩
  have hq : ∀ w : UserRec,
      (w.email == e && w.reset_token == some t) = true → w.email = e := by
    intro w hw
    simp only [Bool.and_eq_true, beq_iff_eq] at hw
    exact hw.1
  have hfind : db.find? (fun v => v.email == e && v.reset_token == some t)
      = some u := hf
  have hres : (reset_password bhash now e t p db).1
      = updateFirst (fun v => v.email == e && v.reset_token == some t)
          (fun v => { v with hashed_password := bhash p,
                             reset_token := none,
                             reset_token_expires := none }) db := by
    unfold reset_password
    simp [hf, hexp, hlt]
  have hnone : findByEmailToken e t ((reset_password bhash now e t p db).1)
      = none := by
    rw [hres, findByEmailToken, List.find?_eq_none]
    intro v hv
    by_cases hve : v.email = e
    · have hveq := updateFirst_eq_of_email hq hn hfind v hv hve
      rw [hveq]
      simp
    · simp [hve]
  have hpu := List.find?_some hfind
  simp only [Bool.and_eq_true, beq_iff_eq] at hpu
  have h2 : ∀ db2, findByEmailToken e t db2 = none →
      (verify_reset_token now2 e t db2).2 = Except.error 400
      ∧ (reset_password bhash now2 e t p2 db2).2 = Except.error 400 := by
    intro db2 hd
    constructor
    · unfold verify_reset_token
      rw [hd]
    · unfold reset_password
      rw [hd]
  refine ⟨?_, (h2 _ hnone).1, (h2 _ hnone).2⟩
  rw [hres]
  exact ⟨_, updateFirst_mem hfind, hpu.1, rfl, rfl⟩

theorem reset_password_single_use_witness :
    (∃ v ∈ (reset_password (fun s => s) 0 "a@b.c" "t1" "newpw" [demoUser]).1,
        v.email = "a@b.c" ∧ v.reset_token = none ∧ v.reset_token_expires = none)
    ∧ (verify_reset_token 5 "a@b.c" "t1"
        ((reset_password (fun s => s) 0 "a@b.c" "t1" "newpw" [demoUser]).1)).2
        = Except.error 400
    ∧ (reset_password (fun s => s) 5 "a@b.c" "t1" "other"
        ((reset_password (fun s => s) 0 "a@b.c" "t1" "newpw" [demoUser]).1)).2
        = Except.error 400 :=
  reset_password_single_use (fun s => s) 0 5 "a@b.c" "t1" "newpw" "other"
    "Password reset successfully" [demoUser] (by simp) rfl

/-- Claim C6: at most one reset token is active per user: when a stored
user matches the submitted email (emails being unique), `forgot_password`
overwrites that user's stored `reset_token` with the freshly generated
value and sets `reset_token_expires` to one hour after the current time,
replacing whatever token and expiry were stored before. -/
theorem forgot_password_overwrites (now : Nat) (freshToken e : String)
    (db : List UserRec) (hn : (db.map UserRec.email).Nodup)
    (hex : ∃ u ∈ db, u.email = e) :
    (∃ v ∈ (forgot_password now freshToken e db).1,
        v.email = e ∧ v.reset_token = some freshToken
          ∧ v.reset_token_expires = some (now + oneHour))
    ∧ ∀ v ∈ (forgot_password now freshToken e db).1, v.email = e →
        v.reset_token = some freshToken
          ∧ v.reset_token_expires = some (now + oneHour) := by
  obtain ⟨u0, hu0, he0⟩ := hex
  obtain ⟨w, hw⟩ : ∃ w, findByEmail e db = some w := by
    cases hf : findByEmail e db with
    | none =>
        rw [findByEmail, List.find?_eq_none] at hf
        exact absurd (by simp [he0]) (hf u0 hu0)
    | some w => exact ⟨w, rfl⟩
  have hwq : db.find? (fun u => u.email == e) = some w := hw
  have hq : ∀ v : UserRec, (v.email == e) = true → v.email = e := by
    intro v hv
    simpa using hv
  have hres : (forgot_password now freshToken e db).1
      = updateFirst (fun u => u.email == e)
          (fun u => { u with reset_token := some freshToken,
                             reset_token_expires := some (now + oneHour) }) db := by
    unfold forgot_password
    simp [hw]
  have hpw := List.find?_some hwq
  simp only [beq_iff_eq] at hpw
  constructor
  · rw [hres]
    exact ⟨_, updateFirst_mem hwq, hpw, rfl, rfl⟩
  · rw [hres]
    intro v hv hve
    rw [updateFirst_eq_of_email hq hn hwq v hv hve]
    exact ⟨rfl, rfl⟩

theorem forgot_password_overwrites_witness :
    (∃ v ∈ (forgot_password 100 "fresh-token" "a@b.c" [demoUser]).1,
        v.email = "a@b.c" ∧ v.reset_token = some "fresh-token"
          ∧ v.reset_token_expires = some (100 + oneHour))
    ∧ ∀ v ∈ (forgot_password 100 "fresh-token" "a@b.c" [demoUser]).1,
        v.email = "a@b.c" →
        v.reset_token = some "fresh-token"
          ∧ v.reset_token_expires = some (100 + oneHour) :=
  forgot_password_overwrites 100 "fresh-token" "a@b.c" [demoUser]
    (by simp) ⟨demoUser, by simp, rfl⟩

end SergeAI
